import Mathlib

/-!
Shallow embedding of the `rsa-multikey` key-conversion library.

The library converts RSA-PSS key pairs between native engine handles,
JWK objects, multibase Multikey documents and raw DER bytes, and builds
sign/verify capabilities.  The cryptographic engine (WebCrypto) and the
base58btc codec are external; they are modelled here as an abstract
`Engine` record over an opaque handle type `H`.  JavaScript truthiness
(empty strings, zero, `undefined` are falsy) is modelled explicitly
because the source branches on it.
-/

namespace RsaMultikey

/-- A JavaScript value as it can arrive at the dynamic entry
points: `undefined`, a string, a `Uint8Array` (bytes), a number, or some
other (truthy) object. -/
inductive JsVal where
  | undef
  | str (s : String)
  | bytes (b : List Nat)
  | num (n : Int)
  | objOther
deriving DecidableEq

/-- JavaScript truthiness of a `JsVal`: `undefined`, `""` and `0` are
falsy; byte arrays and other objects are always truthy. -/
def JsVal.truthy : JsVal → Bool
  | .undef => false
  | .str s => !(s == "")
  | .bytes _ => true
  | .num n => !(n == 0)
  | .objOther => true

/-- Truthiness of an optional string field (`undefined` and `""` are
falsy). -/
def strTruthy : Option String → Bool
  | none => false
  | some s => !(s == "")

/-- Truthiness of an optional numeric field (`undefined` and `0` are
falsy). -/
def natTruthy : Option Nat → Bool
  | none => false
  | some n => !(n == 0)

/-- A JSON Web Key: all fields optional strings, as in the source which
reads them dynamically. -/
structure Jwk where
  kty : Option String := none
  n : Option String := none
  e : Option String := none
  alg : Option String := none
  d : Option String := none
  p : Option String := none
  q : Option String := none
  dp : Option String := none
  dq : Option String := none
  qi : Option String := none
deriving DecidableEq

/-- An element of an `@context` array: a string or some non-string JSON
value (which never compares equal to a URL string under `===`). -/
inductive CtxElem where
  | str (s : String)
  | obj
deriving DecidableEq

/-- An `@context` value: a string, an array, or some other object. -/
inductive Ctx where
  | str (s : String)
  | arr (xs : List CtxElem)
  | obj
deriving DecidableEq

/-- Errors thrown by the library: JavaScript `TypeError` or plain
`Error`, with their message. -/
inductive Err where
  | typeError (msg : String)
  | error (msg : String)
deriving DecidableEq

/-- The parameter object passed to the engine sign/verify calls
(built inline in the source with the RSA-PSS name and salt length 32). -/
structure SignParams where
  name : String
  saltLength : Nat
deriving DecidableEq

/-- The abstract external cryptographic engine (WebCrypto subtle) plus
the base58btc codec, over an opaque handle type `H`.  All conversions
are deterministic functions, matching the assumption of the spec that the
engine serialization is deterministic. -/
structure Engine (H : Type) where
  generateKey : Nat → H × H
  importJwk : Jwk → List String → H
  exportJwk : H → Jwk
  importSpki : Nat → List Nat → List String → H
  importPkcs8 : Nat → List Nat → List String → H
  exportSpki : H → List Nat
  exportPkcs8 : H → List Nat
  sign : SignParams → H → List Nat → List Nat
  verify : SignParams → H → List Nat → List Nat → Except Unit Bool
  base58enc : List Nat → String
  base58dec : String → Option (List Nat)

/-- The dynamic key / key-document object flowing through the library.
It covers Multikey documents, JWK wrappers and engine-backed key pairs:
the source uses one loose object shape for all of these. -/
structure KeyObj (H : Type) where
  id : Option String := none
  controller : Option String := none
  type : Option String := none
  context : Option Ctx := none
  publicKey : Option H := none
  secretKey : Option H := none
  publicKeyJwk : Option Jwk := none
  secretKeyJwk : Option Jwk := none
  privateKeyJwk : Option Jwk := none
  publicKeyMultibase : Option String := none
  secretKeyMultibase : Option String := none
  modulusLength : Option Nat := none
  keyAgreement : Bool := false
deriving DecidableEq

/-- Model of `MULTIKEY_CONTEXT_V1_URL` from `constants.js`. -/
def MULTIKEY_CONTEXT_V1_URL : String := "https://w3id.org/security/multikey/v1"

/-- Model of `DEFAULT_MODULUS_LENGTH` from `constants.js`. -/
def DEFAULT_MODULUS_LENGTH : Nat := 4096

/-- Value of a base64url alphabet character, `none` for characters
outside the alphabet (the Node decoder skips those). -/
def b64Val (c : Char) : Option Nat :=
  if 'A' ≤ c ∧ c ≤ 'Z' then some (c.toNat - 'A'.toNat)
  else if 'a' ≤ c ∧ c ≤ 'z' then some (c.toNat - 'a'.toNat + 26)
  else if '0' ≤ c ∧ c ≤ '9' then some (c.toNat - '0'.toNat + 52)
  else if c = '-' ∨ c = '+' then some 62
  else if c = '_' ∨ c = '/' then some 63
  else none

/-- Regroups a list of 6-bit values into bytes, four values to three
bytes, dropping a trailing lone value as the Node base64 decoder does. -/
def b64Regroup : List Nat → List Nat
  | a :: b :: c :: d :: rest =>
    (a * 4 + b / 16) :: ((b % 16) * 16 + c / 4) :: ((c % 4) * 64 + d) :: b64Regroup rest
  | [a, b, c] => [a * 4 + b / 16, (b % 16) * 16 + c / 4]
  | [a, b] => [a * 4 + b / 16]
  | _ => []

/-- Model of the Node base64url buffer decoding: decode ignoring non-alphabet
characters. -/
def base64urlDecode (s : String) : List Nat :=
  b64Regroup (s.data.filterMap b64Val)

/-- UTF-8 bytes of one character. -/
def utf8Bytes (c : Char) : List Nat :=
  let n := c.toNat
  if n < 0x80 then [n]
  else if n < 0x800 then [0xC0 + n / 64, 0x80 + n % 64]
  else if n < 0x10000 then [0xE0 + n / 4096, 0x80 + (n / 64) % 64, 0x80 + n % 64]
  else [0xF0 + n / 262144, 0x80 + (n / 4096) % 64, 0x80 + (n / 64) % 64, 0x80 + n % 64]

/-- Model of `new TextEncoder().encode(s)`: UTF-8 encoding of a string. -/
def utf8Encode (s : String) : List Nat :=
  (s.data.map utf8Bytes).flatten

/-- Model of `getModulusLengthFromJwk` from `lib/helpers.js`: throws a
`TypeError` when `jwk` or `jwk.n` is falsy, else returns
`byteLength(base64urlDecode(n)) * 8`. -/
def getModulusLengthFromJwk (jwk : Option Jwk) : Except Err Nat :=
  match jwk with
  | none => .error (.typeError "\"jwk\" must have an \"n\" property.")
  | some j =>
    match j.n with
    | none => .error (.typeError "\"jwk\" must have an \"n\" property.")
    | some s =>
      if s == "" then .error (.typeError "\"jwk\" must have an \"n\" property.")
      else .ok ((base64urlDecode s).length * 8)

section Serialize

variable {H : Type}

/-- Model of `toPublicKeyBytes` from `lib/serialize.js`: rejects a missing jwk,
otherwise imports the JWK with usage `verify` and exports SPKI bytes. -/
def toPublicKeyBytes (E : Engine H) (jwk : Option Jwk) : Except Err (List Nat) :=
  match jwk with
  | none => .error (.typeError "\"jwk\" must be an object.")
  | some j => .ok (E.exportSpki (E.importJwk j ["verify"]))

/-- Model of `toSecretKeyBytes` from `lib/serialize.js`: rejects a missing jwk
and a jwk without (truthy) private field `d`, otherwise imports with
usage `sign` and exports PKCS#8 bytes. -/
def toSecretKeyBytes (E : Engine H) (jwk : Option Jwk) : Except Err (List Nat) :=
  match jwk with
  | none => .error (.typeError "\"jwk\" must be an object.")
  | some j =>
    if strTruthy j.d then .ok (E.exportPkcs8 (E.importJwk j ["sign"]))
    else .error (.error "JWK does not contain a private key.")

/-- Restriction of a JWK to its public fields, as built inline at
several places in the source (`{kty, n, e, alg}`). -/
def restrictPublic (j : Jwk) : Jwk :=
  { kty := j.kty, n := j.n, e := j.e, alg := j.alg }

/-- Model of `toPublicKeyMultibaseFromJwk` from `lib/serialize.js`: public-field
restriction, SPKI bytes, base58btc encoding (the codec adds the `z`
marker). -/
def toPublicKeyMultibaseFromJwk (E : Engine H) (jwk : Jwk) : Except Err String :=
  (toPublicKeyBytes E (some (restrictPublic jwk))).map E.base58enc

/-- Model of `toSecretKeyMultibaseFromJwk` from `lib/serialize.js`. -/
def toSecretKeyMultibaseFromJwk (E : Engine H) (jwk : Jwk) : Except Err String :=
  (toSecretKeyBytes E (some jwk)).map E.base58enc

/-- Model of `fromPublicKeyMultibase` from `lib/serialize.js`: requires a string
and base58btc-decodes it (the codec throws on malformed input). -/
def fromPublicKeyMultibase (E : Engine H) (publicKeyMultibase : Option String) :
    Except Err (List Nat) :=
  match publicKeyMultibase with
  | none => .error (.typeError "\"publicKeyMultibase\" must be a string.")
  | some s =>
    match E.base58dec s with
    | some b => .ok b
    | none => .error (.error "invalid base58btc encoding")

/-- Model of `fromSecretKeyMultibase` from `lib/serialize.js`. -/
def fromSecretKeyMultibase (E : Engine H) (secretKeyMultibase : Option String) :
    Except Err (List Nat) :=
  match secretKeyMultibase with
  | none => .error (.typeError "\"secretKeyMultibase\" must be a string.")
  | some s =>
    match E.base58dec s with
    | some b => .ok b
    | none => .error (.error "invalid base58btc encoding")

/-- Model of `cryptoKeyfromRaw` from `lib/serialize.js`: validates the argument
types, then imports PKCS#8 when secret bytes are present, else SPKI. -/
def cryptoKeyfromRaw (E : Engine H) (modulusLength : Option Nat)
    (secretKey : Option (List Nat)) (publicKey : Option (List Nat))
    (keyAgreement : Bool := false) : Except Err H :=
  match modulusLength with
  | none => .error (.typeError "\"modulusLength\" must be a number.")
  | some ml =>
    match publicKey with
    | none => .error (.typeError "\"publicKey\" must be a Uint8Array.")
    | some pub =>
      match secretKey with
      | some sec => .ok (E.importPkcs8 ml sec (if keyAgreement then ["deriveBits"] else ["sign"]))
      | none => .ok (E.importSpki ml pub (if keyAgreement then ["deriveBits"] else ["verify"]))

/-- Model of `importKeyPair` from `lib/serialize.js`: passes engine-backed pairs
through, else imports from `publicKeyJwk` (and `secretKeyJwk` /
`privateKeyJwk`), else from multibase fields with the declared-or-4096
modulus length, else throws. -/
def importKeyPair (E : Engine H) (keyPair : Option (KeyObj H)) : Except Err (KeyObj H) :=
  match keyPair with
  | none => .error (.typeError "\"keyPair\" must be an object.")
  | some kp =>
    if kp.publicKey.isSome then .ok kp
    else
      match kp.publicKeyJwk with
      | some pj =>
        let pub := E.importJwk pj (if kp.keyAgreement then ["deriveBits"] else ["verify"])
        let result := { kp with publicKey := some pub }
        (match (if kp.secretKeyJwk.isSome then kp.secretKeyJwk else kp.privateKeyJwk) with
         | some sj =>
           .ok { result with
                 secretKey := some (E.importJwk sj
                   (if kp.keyAgreement then ["deriveBits"] else ["sign"])) }
         | none => .ok result)
      | none =>
        if strTruthy kp.publicKeyMultibase then
          match fromPublicKeyMultibase E kp.publicKeyMultibase with
          | .error e => .error e
          | .ok pubBytes =>
            let ml := if natTruthy kp.modulusLength then kp.modulusLength.getD 0 else 4096
            match cryptoKeyfromRaw E (some ml) none (some pubBytes) kp.keyAgreement with
            | .error e => .error e
            | .ok pub =>
              let result := { kp with publicKey := some pub }
              if strTruthy kp.secretKeyMultibase then
                match fromSecretKeyMultibase E kp.secretKeyMultibase with
                | .error e => .error e
                | .ok secBytes =>
                  match cryptoKeyfromRaw E (some ml) (some secBytes) (some pubBytes)
                      kp.keyAgreement with
                  | .error e => .error e
                  | .ok sec => .ok { result with secretKey := some sec }
              else .ok result
        else .error (.error "Key pair must have publicKeyJwk or publicKeyMultibase.")

/-- Model of `exportKeyPair` from `lib/serialize.js`: builds a fresh Multikey
document, copies (truthy) `id`/`controller`, exports the public half
when requested and present (JWK plus derived multibase), likewise the
secret half. -/
def exportKeyPair (E : Engine H) (keyPair : Option (KeyObj H))
    (publicKey : Bool := true) (secretKey : Bool := false)
    (includeContext : Bool := true) : Except Err (KeyObj H) :=
  match keyPair with
  | none => .error (.typeError "\"keyPair\" must be an object.")
  | some kp =>
    let r : KeyObj H :=
      { type := some "Multikey",
        context := if includeContext then some (.str MULTIKEY_CONTEXT_V1_URL) else none,
        id := if strTruthy kp.id then kp.id else none,
        controller := if strTruthy kp.controller then kp.controller else none }
    let pubStep : Except Err (KeyObj H) :=
      match publicKey, kp.publicKey with
      | true, some pk =>
        let publicKeyJwk := E.exportJwk pk
        (match toPublicKeyBytes E (some publicKeyJwk) with
         | .error e => .error e
         | .ok publicKeyBytes =>
           .ok { r with publicKeyMultibase := some (E.base58enc publicKeyBytes),
                        publicKeyJwk := some publicKeyJwk })
      | _, _ => .ok r
    match pubStep with
    | .error e => .error e
    | .ok r2 =>
      match secretKey, kp.secretKey with
      | true, some sk =>
        let secretKeyJwk := E.exportJwk sk
        (match toSecretKeyBytes E (some secretKeyJwk) with
         | .error e => .error e
         | .ok secretKeyBytes =>
           .ok { r2 with secretKeyMultibase := some (E.base58enc secretKeyBytes),
                         secretKeyJwk := some secretKeyJwk })
      | _, _ => .ok r2

/-- Model of `toMultikey` from `lib/translators.js`: wraps a generic key object
into a Multikey document, deriving multibase fields from whatever JWK
fields exist. -/
def toMultikey (E : Engine H) (keyPair : Option (KeyObj H)) : Except Err (KeyObj H) :=
  match keyPair with
  | none => .error (.typeError "\"keyPair\" must be an object.")
  | some kp =>
    let m : KeyObj H := { context := some (.str MULTIKEY_CONTEXT_V1_URL), type := some "Multikey" }
    let m := if strTruthy kp.id then { m with id := kp.id } else m
    let m := if strTruthy kp.controller then { m with controller := kp.controller } else m
    let step : Except Err (KeyObj H) :=
      match kp.publicKeyJwk with
      | some pj =>
        (match toPublicKeyMultibaseFromJwk E pj with
         | .error e => .error e
         | .ok mb => .ok { m with publicKeyMultibase := some mb, publicKeyJwk := some pj })
      | none => .ok m
    match step with
    | .error e => .error e
    | .ok m2 =>
      match (if kp.secretKeyJwk.isSome then kp.secretKeyJwk else kp.privateKeyJwk) with
      | some sj =>
        (match toSecretKeyMultibaseFromJwk E sj with
         | .error e => .error e
         | .ok smb => .ok { m2 with secretKeyMultibase := some smb, secretKeyJwk := some sj })
      | none => .ok m2

end Serialize

section Factory

variable {H : Type}

/-- The capability object returned by `createSigner` / `createVerifier`
in `lib/factory.js`: a fixed algorithm label, the key id, and one key
handle. -/
structure Capability (H : Type) where
  algorithm : String
  id : String
  key : H
deriving DecidableEq

/-- Model of `createSigner` from `lib/factory.js`: requires a non-empty string
`id` and a secret key, returns a capability with algorithm `PS256`. -/
def createSigner (id : Option String) (secretKey : Option H) : Except Err (Capability H) :=
  if !(strTruthy id) then .error (.typeError "\"id\" must be a non-empty string.")
  else
    match secretKey with
    | none => .error (.typeError "\"secretKey\" is required.")
    | some k => .ok { algorithm := "PS256", id := id.getD "", key := k }

/-- Model of `createVerifier` from `lib/factory.js`: requires a non-empty string
`id` and a public key, returns a capability with algorithm `PS256`. -/
def createVerifier (id : Option String) (publicKey : Option H) : Except Err (Capability H) :=
  if !(strTruthy id) then .error (.typeError "\"id\" must be a non-empty string.")
  else
    match publicKey with
    | none => .error (.typeError "\"publicKey\" is required.")
    | some k => .ok { algorithm := "PS256", id := id.getD "", key := k }

/-- The `sign({data})` operation of a signer capability from
`lib/factory.js`: rejects falsy data, encodes strings to UTF-8, signs
bytes as-is, rejects other types; always calls the engine with
the RSA-PSS name and salt length 32. -/
def capSign (E : Engine H) (secretKey : H) (data : JsVal) : Except Err (List Nat) :=
  if !data.truthy then .error (.typeError "\"data\" is required.")
  else
    match data with
    | .str s => .ok (E.sign { name := "RSA-PSS", saltLength := 32 } secretKey (utf8Encode s))
    | .bytes b => .ok (E.sign { name := "RSA-PSS", saltLength := 32 } secretKey b)
    | _ => .error (.typeError "\"data\" must be a string or Uint8Array.")

/-- The `verify({data, signature})` operation of a verifier capability
from `lib/factory.js`: rejects falsy data/signature, encodes string data
to UTF-8, requires `signature` to be a `Uint8Array`, then calls the
engine with the RSA-PSS name and salt length 32 inside a try/catch that
folds an engine throw into `false`. -/
def capVerify (E : Engine H) (publicKey : H) (data signature : JsVal) : Except Err Bool :=
  if !data.truthy then .error (.typeError "\"data\" is required.")
  else if !signature.truthy then .error (.typeError "\"signature\" is required.")
  else
    match data with
    | .str s => capVerifyBytes E publicKey (utf8Encode s) signature
    | .bytes b => capVerifyBytes E publicKey b signature
    | _ => .error (.typeError "\"data\" must be a string or Uint8Array.")
where
  /-- The tail of `verify` after data normalization: the signature type
  check and the engine call wrapped in try/catch. -/
  capVerifyBytes (E : Engine H) (publicKey : H) (dataToVerify : List Nat)
      (signature : JsVal) : Except Err Bool :=
    match signature with
    | .bytes sb =>
      (match E.verify { name := "RSA-PSS", saltLength := 32 } publicKey sb dataToVerify with
       | .ok b => .ok b
       | .error _ => .ok false)
    | _ => .error (.typeError "\"signature\" must be a Uint8Array.")

end Factory

section Facade

variable {H : Type}

/-- Truthiness of an `@context` field (`undefined` and `""` are falsy,
arrays and objects truthy). -/
def ctxTruthy : Option Ctx → Bool
  | none => false
  | some (.str s) => !(s == "")
  | some (.arr _) => true
  | some .obj => true

/-- The `@context` condition of `_assertMultikey` in `lib/helpers.js`:
strictly equal to the fixed URL, or an array containing it. -/
def ctxOk : Option Ctx → Bool
  | some (.str s) => s == MULTIKEY_CONTEXT_V1_URL
  | some (.arr xs) => xs.contains (.str MULTIKEY_CONTEXT_V1_URL)
  | _ => false

/-- Model of `_assertMultikey` from `lib/helpers.js`: must be an object, have
`type` strictly equal to "Multikey", and an `@context` equal to or containing the
fixed Multikey context URL; each violation throws a `TypeError` naming
the violated clause. -/
def assertMultikey (key : Option (KeyObj H)) : Except Err Unit :=
  match key with
  | none => .error (.typeError "\"key\" must be an object.")
  | some k =>
    if k.type ≠ some "Multikey" then
      .error (.typeError "\"key\" must be a Multikey with type \"Multikey\".")
    else if !(ctxOk k.context) then
      .error (.typeError ("\"key\" must be a Multikey with context \"" ++
        MULTIKEY_CONTEXT_V1_URL ++ "\"."))
    else .ok ()

/-- Model of `_createKeyPairInterface` from `lib/helpers.js`: imports the key
pair unless it is already engine-backed, resolves the modulus length
(argument, then the own field of the pair, then the public JWK, then 4096),
performs the full export to materialize `publicKeyMultibase` /
`secretKeyMultibase`, and returns the augmented pair (the attached
`export`/`signer`/`verifier` closures are modelled as the free
functions of this file). -/
def createKeyPairInterface (E : Engine H) (keyPair : Option (KeyObj H))
    (modulusLength : Option Nat := none) : Except Err (KeyObj H) :=
  match (match keyPair with
         | some k => if k.publicKey.isSome then .ok k else importKeyPair E (some k)
         | none => importKeyPair E none : Except Err (KeyObj H)) with
  | .error e => .error e
  | .ok kp =>
    match (if natTruthy modulusLength then .ok (modulusLength.getD 0)
           else if natTruthy kp.modulusLength then .ok (kp.modulusLength.getD 0)
           else match kp.publicKeyJwk with
             | some pj => getModulusLengthFromJwk (some pj)
             | none => .ok DEFAULT_MODULUS_LENGTH : Except Err Nat) with
    | .error e => .error e
    | .ok mlen =>
      match exportKeyPair E (some kp) true true true with
      | .error e => .error e
      | .ok exported =>
        .ok { kp with publicKeyMultibase := exported.publicKeyMultibase,
                      secretKeyMultibase := exported.secretKeyMultibase,
                      modulusLength := some mlen }

/-- Model of `generate` from `lib/helpers.js`: validates the modulus length,
generates a fresh engine pair, builds the key pair interface, exports
the public half to obtain `publicKeyMultibase`, and derives the id
(`id`, else `controller#mb`, else `#mb`). -/
def generate (E : Engine H) (id controller : Option String := none)
    (modulusLength : Nat := DEFAULT_MODULUS_LENGTH) : Except Err (KeyObj H) :=
  if modulusLength ≠ 2048 ∧ modulusLength ≠ 3072 ∧ modulusLength ≠ 4096 then
    .error (.typeError "\"modulusLength\" must be one of: 2048, 3072, or 4096.")
  else
    let pair := E.generateKey modulusLength
    let keyPair : KeyObj H := { publicKey := some pair.1, secretKey := some pair.2 }
    match createKeyPairInterface E (some keyPair) (some modulusLength) with
    | .error e => .error e
    | .ok kpi =>
      match exportKeyPair E (some kpi) true false true with
      | .error e => .error e
      | .ok exported =>
        let publicKeyMultibase := exported.publicKeyMultibase.getD "undefined"
        let id' :=
          if strTruthy id then id
          else if strTruthy controller then
            some ((controller.getD "") ++ "#" ++ publicKeyMultibase)
          else some ("#" ++ publicKeyMultibase)
        .ok { kpi with id := id', controller := controller,
                       modulusLength := some modulusLength }

/-- The tail of `from` in `lib/helpers.js` (reached when `type` is
`"Multikey"` or when neither the JWK nor the coercion branch fired):
defaults `type` and `@context`, derives `id` from `controller` and
`publicKeyMultibase`, validates, and builds the interface. -/
def fromTail (E : Engine H) (doc : KeyObj H) : Except Err (KeyObj H) :=
  let d := if strTruthy doc.type then doc else { doc with type := some "Multikey" }
  let d := if ctxTruthy d.context then d
           else { d with context := some (.str MULTIKEY_CONTEXT_V1_URL) }
  let d := if strTruthy d.controller ∧ !(strTruthy d.id) then
             { d with id := some ((d.controller.getD "") ++ "#" ++
               (d.publicKeyMultibase.getD "undefined")) }
           else d
  match assertMultikey (some d) with
  | .error e => .error e
  | .ok _ => createKeyPairInterface E (some d)

/-- Model of `fromJwk` from `lib/helpers.js`: validates the JWK, derives the
modulus length, builds a Multikey document carrying multibase and JWK
public fields (and, when requested and `d` is present, the secret
fields), and delegates to `from`.  Since the built document has
`type = "Multikey"`, the delegated `from` call reduces to `fromTail`,
which is inlined here to keep the definitions non-mutual. -/
def fromJwk (E : Engine H) (jwk : Option Jwk) (secretKey : Bool := false)
    (id controller : Option String := none) : Except Err (KeyObj H) :=
  match jwk with
  | none => .error (.typeError "\"jwk\" is required.")
  | some j =>
    if j.kty ≠ some "RSA" then .error (.typeError "JWK must have kty \"RSA\".")
    else
      match getModulusLengthFromJwk (some j) with
      | .error e => .error e
      | .ok modulusLength =>
        match toPublicKeyMultibaseFromJwk E (restrictPublic j) with
        | .error e => .error e
        | .ok mb =>
          let algOr := if strTruthy j.alg then j.alg else some "PS256"
          let multikey : KeyObj H :=
            { context := some (.str MULTIKEY_CONTEXT_V1_URL),
              type := some "Multikey",
              publicKeyMultibase := some mb,
              publicKeyJwk := some { kty := j.kty, n := j.n, e := j.e, alg := algOr },
              modulusLength := some modulusLength }
          let multikey := match id with
            | some s => { multikey with id := some s }
            | none => multikey
          let multikey := match controller with
            | some s => { multikey with controller := some s }
            | none => multikey
          let secretJwk : Jwk :=
            { kty := j.kty, n := j.n, e := j.e, d := j.d,
              p := j.p, q := j.q, dp := j.dp, dq := j.dq, qi := j.qi, alg := algOr }
          if secretKey ∧ strTruthy j.d then
            match toSecretKeyMultibaseFromJwk E j with
            | .error e => .error e
            | .ok smb =>
              fromTail E { multikey with
                           secretKeyMultibase := some smb,
                           secretKeyJwk := some secretJwk }
          else fromTail E multikey

/-- Model of `from` from `lib/helpers.js`: spreads the input into a fresh object
(so `undefined` becomes `{}`), then dispatches: non-Multikey type with
`publicKeyJwk` goes to the JWK path (carrying `id`/`controller` only
for the recognized JsonWebKey types), non-Multikey truthy type without
`publicKeyJwk` goes through the generic `toMultikey` coercion, and
everything else through the Multikey tail. -/
def «from» (E : Engine H) (key : Option (KeyObj H)) : Except Err (KeyObj H) :=
  let multikey := key.getD {}
  if multikey.type ≠ some "Multikey" then
    if multikey.publicKeyJwk.isSome then
      let idCtrl : Option String × Option String :=
        if multikey.type = some "JsonWebKey" ∨ multikey.type = some "JsonWebKey2020" then
          (multikey.id, multikey.controller)
        else (none, none)
      fromJwk E multikey.publicKeyJwk
        (multikey.secretKeyJwk.isSome || multikey.privateKeyJwk.isSome)
        idCtrl.1 idCtrl.2
    else if strTruthy multikey.type then
      match toMultikey E (some multikey) with
      | .error e => .error e
      | .ok m => createKeyPairInterface E (some m)
    else fromTail E multikey
  else fromTail E multikey

/-- Model of `toJwk` from `lib/helpers.js`: re-imports unless engine-backed,
selects the secret handle only when requested and present, exports a
JWK and defaults `alg` to `PS256`. -/
def toJwk (E : Engine H) (keyPair : Option (KeyObj H)) (secretKey : Bool := false) :
    Except Err Jwk :=
  match (match keyPair with
         | some k => if k.publicKey.isSome then .ok k else importKeyPair E (some k)
         | none => importKeyPair E none : Except Err (KeyObj H)) with
  | .error e => .error e
  | .ok kp =>
    let useSecretKey := secretKey && kp.secretKey.isSome
    match (if useSecretKey then kp.secretKey else kp.publicKey) with
    | none => .error (.typeError "no key available")
    | some h =>
      let jwk := E.exportJwk h
      .ok (if strTruthy jwk.alg then jwk else { jwk with alg := some "PS256" })

end Facade

section ConcreteEngine

/-- A small concrete public RSA JWK used to instantiate theorems. -/
def calcPubJwk : Jwk :=
  { kty := some "RSA", n := some "AQABAQAB", e := some "AQAB" }

/-- A small concrete secret RSA JWK (with private field `d`). -/
def calcSecJwk : Jwk :=
  { kty := some "RSA", n := some "AQABAQAB", e := some "AQAB", d := some "AQID" }

/-- A concrete, fully computable engine whose handles are JWKs
themselves: JWK import/export is the identity, byte encodings and the
codec are simple injective computable functions.  Used to evaluate the
theorems on concrete inputs. -/
def calcEngine : Engine Jwk where
  generateKey := fun _ => (calcPubJwk, calcSecJwk)
  importJwk := fun j _ => j
  exportJwk := fun j => j
  importSpki := fun _ _ _ => calcPubJwk
  importPkcs8 := fun _ _ _ => calcSecJwk
  exportSpki := fun j => utf8Encode (j.n.getD "")
  exportPkcs8 := fun j => utf8Encode (j.d.getD "")
  sign := fun _ _ d => 0 :: d
  verify := fun _ _ sig d => .ok (sig == 0 :: d)
  base58enc := fun b => "z" ++ String.intercalate "." (b.map toString)
  base58dec := fun s => some (utf8Encode s)

/-- A concrete engine-backed key pair holding both halves. -/
def calcPair : KeyObj Jwk :=
  { publicKey := some calcPubJwk, secretKey := some calcSecJwk }

/-- A concrete engine-backed public-only key pair. -/
def calcPubOnlyPair : KeyObj Jwk :=
  { publicKey := some calcPubJwk }

end ConcreteEngine

section Claims

/-- Decidable equality of `Except` values, for evaluating theorems on
concrete inputs. -/
instance {ε α : Type} [DecidableEq ε] [DecidableEq α] : DecidableEq (Except ε α) := fun x y =>
  match x, y with
  | .ok a, .ok b => if h : a = b then .isTrue (by simp [h]) else .isFalse (by simp [h])
  | .error a, .error b => if h : a = b then .isTrue (by simp [h]) else .isFalse (by simp [h])
  | .ok _, .error _ => .isFalse (by simp)
  | .error _, .ok _ => .isFalse (by simp)

/-- The `@context` acceptance condition, unfolded to a proposition. -/
lemma ctxOk_iff (c : Option Ctx) :
    ctxOk c = true ↔
      (c = some (.str MULTIKEY_CONTEXT_V1_URL) ∨
        ∃ xs, c = some (.arr xs) ∧ CtxElem.str MULTIKEY_CONTEXT_V1_URL ∈ xs) := by
  cases c with
  | none => simp [ctxOk]
  | some v =>
    cases v with
    | str s =>
      simp only [ctxOk, beq_iff_eq, Option.some.injEq, Ctx.str.injEq]
      constructor
      · exact fun h => .inl h
      · rintro (h | ⟨xs, h, _⟩)
        · exact h
        · exact Ctx.noConfusion h
    | arr xs => simp [ctxOk]
    | obj => simp [ctxOk]

/-- C4: `_assertMultikey` accepts exactly the objects with
`type = "Multikey"` whose `@context` equals the fixed Multikey context
URL or is an array containing it (so `[{}, URL]` is accepted like the
bare URL), and each violation raises a `TypeError` naming the violated
clause. -/
theorem assertMultikey_spec {H : Type} (key : Option (KeyObj H)) :
    (assertMultikey key = .ok () ↔
      ∃ k, key = some k ∧ k.type = some "Multikey" ∧
        (k.context = some (.str MULTIKEY_CONTEXT_V1_URL) ∨
          ∃ xs, k.context = some (.arr xs) ∧ CtxElem.str MULTIKEY_CONTEXT_V1_URL ∈ xs)) ∧
    (key = none → assertMultikey key = .error (.typeError "\"key\" must be an object.")) ∧
    (∀ k, key = some k → k.type ≠ some "Multikey" →
      assertMultikey key =
        .error (.typeError "\"key\" must be a Multikey with type \"Multikey\".")) ∧
    (∀ k, key = some k → k.type = some "Multikey" → ctxOk k.context = false →
      assertMultikey key = .error (.typeError ("\"key\" must be a Multikey with context \"" ++
        MULTIKEY_CONTEXT_V1_URL ++ "\"."))) := by
  refine ⟨?_, ?_, ?_, ?_⟩
  · cases key with
    | none => simp [assertMultikey]
    | some k =>
      rw [show (assertMultikey (some k) = .ok ()) ↔
            (k.type = some "Multikey" ∧ ctxOk k.context = true) from ?_]
      · constructor
        · rintro ⟨ht, hc⟩
          exact ⟨k, rfl, ht, (ctxOk_iff k.context).mp hc⟩
        · rintro ⟨k', hk', ht, hc⟩
          cases Option.some.inj hk'
          exact ⟨ht, (ctxOk_iff k.context).mpr hc⟩
      · unfold assertMultikey
        constructor
        · intro h
          by_cases ht : k.type = some "Multikey"
          · by_cases hc : ctxOk k.context
            · exact ⟨ht, hc⟩
            · simp [ht, hc] at h
          · simp [ht] at h
        · rintro ⟨ht, hc⟩
          simp [ht, hc]
  · rintro rfl; rfl
  · rintro k rfl ht
    unfold assertMultikey
    simp [ht]
  · rintro k rfl ht hc
    unfold assertMultikey
    simp [ht, hc]

/-- A concrete Multikey document whose `@context` is the array
`[{}, <fixed Multikey URL>]`. -/
def calcCtxArrayDoc : KeyObj Jwk :=
  { type := some "Multikey",
    context := some (.arr [.obj, .str MULTIKEY_CONTEXT_V1_URL]) }

/-- Witness for `assertMultikey_spec`: at a concrete document whose
`@context` is `[{}, <fixed URL>]` the acceptance clause holds. -/
theorem assertMultikey_spec_witness :
    assertMultikey (H := Jwk) (some calcCtxArrayDoc) = .ok () :=
  ((assertMultikey_spec (H := Jwk) (some calcCtxArrayDoc)).1).mpr
    ⟨calcCtxArrayDoc, rfl, rfl, .inr ⟨_, rfl, by decide⟩⟩

/-- C8 (amended): `getModulusLengthFromJwk` returns
`byteLength(base64urlDecode(n)) * 8` for every JWK whose `n` is a
nonempty string, with no special-casing of a stripped leading zero
byte, and rejects a missing (or empty) `n` with a `TypeError`. -/
theorem getModulusLengthFromJwk_spec (j : Jwk) :
    (∀ s, j.n = some s → s ≠ "" →
      getModulusLengthFromJwk (some j) = .ok ((base64urlDecode s).length * 8)) ∧
    (j.n = none →
      getModulusLengthFromJwk (some j) =
        .error (.typeError "\"jwk\" must have an \"n\" property.")) ∧
    (j.n = some "" →
      getModulusLengthFromJwk (some j) =
        .error (.typeError "\"jwk\" must have an \"n\" property.")) ∧
    (getModulusLengthFromJwk none =
      .error (.typeError "\"jwk\" must have an \"n\" property.")) := by
  refine ⟨?_, ?_, ?_, rfl⟩
  · intro s hs hne
    simp [getModulusLengthFromJwk, hs, hne]
  · intro hn
    simp [getModulusLengthFromJwk, hn]
  · intro hn
    simp [getModulusLengthFromJwk, hn]

/-- Witness for `getModulusLengthFromJwk_spec`: a concrete 8-character
base64url modulus decodes to 6 bytes, so the derived length is 48
bits. -/
theorem getModulusLengthFromJwk_spec_witness :
    getModulusLengthFromJwk (some calcPubJwk) = .ok 48 := by
  have h := (getModulusLengthFromJwk_spec calcPubJwk).1 "AQABAQAB" rfl (by decide)
  rw [h]
  decide

/-- C8 counterexample: a JWK whose `n` field is present but empty is
rejected with a `TypeError`, where the claim as stated demands the
derived length `8 × byteLength(base64url_decode("")) = 0`. -/
theorem getModulusLengthFromJwk_empty_n_counterexample :
    getModulusLengthFromJwk (some { n := some "" }) =
      .error (.typeError "\"jwk\" must have an \"n\" property.") ∧
    (base64urlDecode "").length * 8 = 0 := by
  exact ⟨rfl, rfl⟩

/-- C7 (amended): `sign({data})` encodes nonempty string data to UTF-8
and signs byte data as-is, always invoking the engine with RSA-PSS and
salt length 32 and returning raw signature bytes; the empty string and
absent data fail the required-data check, any other type fails the
type check; the algorithm label of the signer capability is `PS256`. -/
theorem capSign_spec {H : Type} (E : Engine H) (sk : H) :
    (∀ s, s ≠ "" → capSign E sk (.str s) =
      .ok (E.sign { name := "RSA-PSS", saltLength := 32 } sk (utf8Encode s))) ∧
    (∀ b, capSign E sk (.bytes b) =
      .ok (E.sign { name := "RSA-PSS", saltLength := 32 } sk b)) ∧
    (capSign E sk (.str "") = .error (.typeError "\"data\" is required.")) ∧
    (capSign E sk .undef = .error (.typeError "\"data\" is required.")) ∧
    (∀ d : JsVal, (∀ s, d ≠ .str s) → (∀ b, d ≠ .bytes b) →
      ∃ m, capSign E sk d = .error (.typeError m)) ∧
    (∀ (idv : Option String) (k : H) (cap : Capability H),
      createSigner idv (some k) = .ok cap → cap.algorithm = "PS256") := by
  refine ⟨?_, ?_, rfl, rfl, ?_, ?_⟩
  · intro s hne
    simp [capSign, JsVal.truthy, hne]
  · intro b
    rfl
  · intro d hs hb
    cases d with
    | undef => exact ⟨"\"data\" is required.", rfl⟩
    | str s => exact absurd rfl (hs s)
    | bytes b => exact absurd rfl (hb b)
    | num n =>
      by_cases hn : n = 0
      · subst hn
        exact ⟨"\"data\" is required.", rfl⟩
      · refine ⟨"\"data\" must be a string or Uint8Array.", ?_⟩
        simp [capSign, JsVal.truthy, hn]
    | objOther => exact ⟨"\"data\" must be a string or Uint8Array.", rfl⟩
  · intro idv k cap h
    by_cases hid : strTruthy idv = true
    · simp [createSigner, hid] at h
      rw [← h]
    · simp [createSigner, hid] at h

/-- Witness for `capSign_spec`: signing the concrete string
`"test 1234"` with the concrete engine produces the engine signature of
its UTF-8 bytes under RSA-PSS with salt length 32. -/
theorem capSign_spec_witness :
    capSign calcEngine calcSecJwk (.str "test 1234") =
      .ok (calcEngine.sign { name := "RSA-PSS", saltLength := 32 } calcSecJwk
        (utf8Encode "test 1234")) :=
  (capSign_spec calcEngine calcSecJwk).1 "test 1234" (by decide)

/-- C7 counterexample: the empty string is a string, but
`sign({data: ""})` throws the required-data `TypeError` instead of
signing its UTF-8 encoding. -/
theorem capSign_empty_string_counterexample :
    capSign calcEngine calcSecJwk (.str "") = .error (.typeError "\"data\" is required.") := by
  rfl

/-- Normalized data bytes of a `verify`/`sign` input that passes the
data checks: UTF-8 bytes of a nonempty string, byte data as-is. -/
def verifyDataBytes : JsVal → Option (List Nat)
  | .str s => if s = "" then none else some (utf8Encode s)
  | .bytes b => some b
  | _ => none

/-- C6 (amended): if `signature` is not a byte string, `verify` fails
with a `TypeError` without consulting the engine (the result is the
same for every engine); if `signature` is a byte string and `data`
passes the data checks, `verify` returns a boolean, folding an
engine-level verification throw into `false`; if `signature` is a byte
string but `data` fails the data checks (wrong type, absent, or the
falsy empty string), `verify` still fails fast with a `TypeError`
without consulting the engine. -/
theorem capVerify_spec {H : Type} (E : Engine H) (pk : H) (data signature : JsVal) :
    ((∀ sb, signature ≠ .bytes sb) →
      ∃ m, ∀ E' : Engine H, capVerify E' pk data signature = .error (.typeError m)) ∧
    (∀ sb db, signature = .bytes sb → verifyDataBytes data = some db →
      capVerify E pk data signature =
        .ok (match E.verify { name := "RSA-PSS", saltLength := 32 } pk sb db with
             | .ok b => b
             | .error _ => false)) ∧
    (∀ sb, signature = .bytes sb → verifyDataBytes data = none →
      ∃ m, ∀ E' : Engine H, capVerify E' pk data signature = .error (.typeError m)) := by
  refine ⟨?_, ?_, ?_⟩
  case refine_3 =>
    intro sb hsig hdb
    subst hsig
    cases data with
    | undef => exact ⟨"\"data\" is required.", fun E' => rfl⟩
    | str s =>
      by_cases hs : s = ""
      · subst hs
        exact ⟨"\"data\" is required.", fun E' => rfl⟩
      · simp [verifyDataBytes, hs] at hdb
    | bytes b => simp [verifyDataBytes] at hdb
    | num n =>
      by_cases hn : n = 0
      · subst hn
        exact ⟨"\"data\" is required.", fun E' => rfl⟩
      · refine ⟨"\"data\" must be a string or Uint8Array.", fun E' => ?_⟩
        simp [capVerify, JsVal.truthy, hn]
    | objOther => exact ⟨"\"data\" must be a string or Uint8Array.", fun E' => rfl⟩
  · intro hsb
    cases data with
    | undef => exact ⟨"\"data\" is required.", fun E' => rfl⟩
    | str s =>
      by_cases hs : s = ""
      · subst hs
        exact ⟨"\"data\" is required.", fun E' => rfl⟩
      · cases signature with
        | bytes sb => exact absurd rfl (hsb sb)
        | undef =>
          refine ⟨"\"signature\" is required.", fun E' => ?_⟩
          simp [capVerify, JsVal.truthy, hs]
        | str t =>
          by_cases ht : t = ""
          · subst ht
            refine ⟨"\"signature\" is required.", fun E' => ?_⟩
            simp [capVerify, JsVal.truthy, hs]
          · refine ⟨"\"signature\" must be a Uint8Array.", fun E' => ?_⟩
            simp [capVerify, capVerify.capVerifyBytes, JsVal.truthy, hs, ht]
        | num n =>
          by_cases hn : n = 0
          · subst hn
            refine ⟨"\"signature\" is required.", fun E' => ?_⟩
            simp [capVerify, JsVal.truthy, hs]
          · refine ⟨"\"signature\" must be a Uint8Array.", fun E' => ?_⟩
            simp [capVerify, capVerify.capVerifyBytes, JsVal.truthy, hs, hn]
        | objOther =>
          refine ⟨"\"signature\" must be a Uint8Array.", fun E' => ?_⟩
          simp [capVerify, capVerify.capVerifyBytes, JsVal.truthy, hs]
    | bytes b =>
      cases signature with
      | bytes sb => exact absurd rfl (hsb sb)
      | undef => exact ⟨"\"signature\" is required.", fun E' => rfl⟩
      | str t =>
        by_cases ht : t = ""
        · subst ht
          exact ⟨"\"signature\" is required.", fun E' => rfl⟩
        · refine ⟨"\"signature\" must be a Uint8Array.", fun E' => ?_⟩
          simp [capVerify, capVerify.capVerifyBytes, JsVal.truthy, ht]
      | num n =>
        by_cases hn : n = 0
        · subst hn
          exact ⟨"\"signature\" is required.", fun E' => rfl⟩
        · refine ⟨"\"signature\" must be a Uint8Array.", fun E' => ?_⟩
          simp [capVerify, capVerify.capVerifyBytes, JsVal.truthy, hn]
      | objOther => exact ⟨"\"signature\" must be a Uint8Array.", fun E' => rfl⟩
    | num n =>
      by_cases hn : n = 0
      · subst hn
        exact ⟨"\"data\" is required.", fun E' => rfl⟩
      · have hd : (JsVal.num n).truthy = true := by simp [JsVal.truthy, hn]
        by_cases hsig : signature.truthy = true
        · refine ⟨"\"data\" must be a string or Uint8Array.", fun E' => ?_⟩
          simp [capVerify, hd, hsig]
        · refine ⟨"\"signature\" is required.", fun E' => ?_⟩
          simp [capVerify, hd, hsig]
    | objOther =>
      have hd : JsVal.objOther.truthy = true := rfl
      by_cases hsig : signature.truthy = true
      · exact ⟨"\"data\" must be a string or Uint8Array.", fun E' => by simp [capVerify, hd, hsig]⟩
      · exact ⟨"\"signature\" is required.", fun E' => by simp [capVerify, hd, hsig]⟩
  · intro sb db hsig hdb
    subst hsig
    have hbytes : ∀ db₀, capVerify.capVerifyBytes E pk db₀ (.bytes sb) =
        .ok (match E.verify { name := "RSA-PSS", saltLength := 32 } pk sb db₀ with
             | .ok b => b
             | .error _ => false) := by
      intro db₀
      cases hv : E.verify { name := "RSA-PSS", saltLength := 32 } pk sb db₀ with
      | ok b => simp [capVerify.capVerifyBytes, hv]
      | error e => simp [capVerify.capVerifyBytes, hv]
    cases data with
    | str s =>
      by_cases hs : s = ""
      · simp [verifyDataBytes, hs] at hdb
      · simp only [verifyDataBytes, if_neg hs, Option.some.injEq] at hdb
        subst hdb
        simp [capVerify, JsVal.truthy, hs, hbytes]
    | bytes b =>
      simp only [verifyDataBytes, Option.some.injEq] at hdb
      subst hdb
      simp [capVerify, JsVal.truthy, hbytes]
    | undef => simp [verifyDataBytes] at hdb
    | num n => simp [verifyDataBytes] at hdb
    | objOther => simp [verifyDataBytes] at hdb

/-- Witness for `capVerify_spec`: with the concrete engine, a byte
signature and byte data, `verify` returns the boolean fold of the
engine result. -/
theorem capVerify_spec_witness :
    capVerify calcEngine calcPubJwk (.bytes [1, 2]) (.bytes [9]) =
      .ok (match calcEngine.verify { name := "RSA-PSS", saltLength := 32 }
             calcPubJwk [9] [1, 2] with
           | .ok b => b
           | .error _ => false) :=
  (capVerify_spec calcEngine calcPubJwk (.bytes [1, 2]) (.bytes [9])).2.1 [9] [1, 2] rfl rfl

/-- C6 counterexample: with a byte-string signature but numeric data,
`verify` throws a `TypeError` instead of returning a boolean. -/
theorem capVerify_nonbytes_data_counterexample :
    capVerify calcEngine calcPubJwk (.num 42) (.bytes [1]) =
      .error (.typeError "\"data\" must be a string or Uint8Array.") := by
  rfl

/-- C9: when the input field `type` is present and not `"Multikey"` but
`publicKeyJwk` is present, `from` delegates to the JWK import path,
carrying `id`/`controller` through exactly when the declared type is
`"JsonWebKey"` or `"JsonWebKey2020"` and dropping them otherwise. -/
theorem from_delegates_jwk {H : Type} (E : Engine H) (doc : KeyObj H) (t : String)
    (ht : doc.type = some t) (hne : t ≠ "Multikey") (hj : doc.publicKeyJwk.isSome = true) :
    «from» E (some doc) =
      fromJwk E doc.publicKeyJwk
        (doc.secretKeyJwk.isSome || doc.privateKeyJwk.isSome)
        (if t = "JsonWebKey" ∨ t = "JsonWebKey2020" then doc.id else none)
        (if t = "JsonWebKey" ∨ t = "JsonWebKey2020" then doc.controller else none) := by
  unfold «from»
  simp only [Option.getD_some]
  rw [if_pos (by rw [ht]; simp [hne]), if_pos hj]
  by_cases hrec : t = "JsonWebKey" ∨ t = "JsonWebKey2020"
  · rw [if_pos (by rw [ht]; simpa using hrec)]
    simp [hrec]
  · rw [if_neg (by rw [ht]; simpa using hrec)]
    simp [hrec]

/-- A concrete JsonWebKey2020 wrapper document. -/
def calcJwkWrapperDoc : KeyObj Jwk :=
  { type := some "JsonWebKey2020", id := some "kid", controller := some "did:x",
    publicKeyJwk := some calcPubJwk }

/-- Witness for `from_delegates_jwk`: a concrete JsonWebKey2020 wrapper
is delegated to the JWK path with its `id` and `controller` carried. -/
theorem from_delegates_jwk_witness :
    «from» calcEngine (some calcJwkWrapperDoc) =
      fromJwk calcEngine (some calcPubJwk) false (some "kid") (some "did:x") := by
  rw [from_delegates_jwk calcEngine calcJwkWrapperDoc "JsonWebKey2020" rfl
    (by decide) rfl]
  decide

/-- C10: `toJwk` with `secretKey: true` on an engine-backed public-only
key pair does not fail: it falls back to exporting the public key and
returns a public-only JWK without a `d` field (the engine export of a
public handle carries no private material). -/
theorem toJwk_public_fallback {H : Type} (E : Engine H) (kp : KeyObj H) (hp : H)
    (hpub : kp.publicKey = some hp) (hsec : kp.secretKey = none)
    (hd : (E.exportJwk hp).d = none) :
    ∃ j, toJwk E (some kp) true = .ok j ∧ j.d = none ∧
      j.n = (E.exportJwk hp).n ∧ j.e = (E.exportJwk hp).e := by
  refine ⟨if strTruthy (E.exportJwk hp).alg then E.exportJwk hp
          else { E.exportJwk hp with alg := some "PS256" }, ?_, ?_, ?_, ?_⟩
  · simp [toJwk, hpub, hsec]
  · by_cases ha : strTruthy (E.exportJwk hp).alg = true
    · simp [ha, hd]
    · simp only [Bool.not_eq_true] at ha
      simp [ha, hd]
  · by_cases ha : strTruthy (E.exportJwk hp).alg = true
    · simp [ha]
    · simp only [Bool.not_eq_true] at ha
      simp [ha]
  · by_cases ha : strTruthy (E.exportJwk hp).alg = true
    · simp [ha]
    · simp only [Bool.not_eq_true] at ha
      simp [ha]

/-- Witness for `toJwk_public_fallback`: the concrete public-only pair
exports a public JWK without `d` under `secretKey: true`. -/
theorem toJwk_public_fallback_witness :
    ∃ j, toJwk calcEngine (some calcPubOnlyPair) true = .ok j ∧ j.d = none ∧
      j.n = (calcEngine.exportJwk calcPubJwk).n ∧
      j.e = (calcEngine.exportJwk calcPubJwk).e :=
  toJwk_public_fallback calcEngine calcPubOnlyPair calcPubJwk rfl rfl rfl

/-- C5: a document export includes the secret fields iff the secret
half was requested and the key pair actually holds a secret handle; in
particular exporting a public-only pair with `secretKey: true` succeeds
with both secret fields absent. -/
theorem exportKeyPair_secret_omission {H : Type} (E : Engine H) (kp : KeyObj H) :
    (∀ (pk sk ic : Bool) (doc : KeyObj H),
      exportKeyPair E (some kp) pk sk ic = .ok doc →
      ((doc.secretKeyJwk.isSome = true) ↔ (sk = true ∧ kp.secretKey.isSome = true)) ∧
      ((doc.secretKeyMultibase.isSome = true) ↔ (sk = true ∧ kp.secretKey.isSome = true))) ∧
    (kp.secretKey = none →
      ∃ doc, exportKeyPair E (some kp) true true true = .ok doc ∧
        doc.secretKeyJwk = none ∧ doc.secretKeyMultibase = none) := by
  constructor
  · intro pk sk ic doc h
    cases pk <;> cases sk <;>
      rcases hpk : kp.publicKey with _ | pv <;>
      rcases hsk : kp.secretKey with _ | sv <;>
      simp only [exportKeyPair, toPublicKeyBytes, toSecretKeyBytes, hpk, hsk,
        Except.ok.injEq] at h
    case false.false.none.none =>
      subst h; simp
    case false.false.none.some =>
      subst h; simp
    case false.false.some.none =>
      subst h; simp
    case false.false.some.some =>
      subst h; simp
    case false.true.none.none =>
      subst h; simp
    case false.true.some.none =>
      subst h; simp
    case false.true.none.some =>
      rcases hd : strTruthy (E.exportJwk sv).d with _ | _ <;> rw [hd] at h
      · simp at h
      · simp only [if_true, Except.ok.injEq] at h
        subst h; simp
    case false.true.some.some =>
      rcases hd : strTruthy (E.exportJwk sv).d with _ | _ <;> rw [hd] at h
      · simp at h
      · simp only [if_true, Except.ok.injEq] at h
        subst h; simp
    case true.false.none.none =>
      subst h; simp
    case true.false.none.some =>
      subst h; simp
    case true.false.some.none =>
      subst h; simp
    case true.false.some.some =>
      subst h; simp
    case true.true.none.none =>
      subst h; simp
    case true.true.some.none =>
      subst h; simp
    case true.true.none.some =>
      rcases hd : strTruthy (E.exportJwk sv).d with _ | _ <;> rw [hd] at h
      · simp at h
      · simp only [if_true, Except.ok.injEq] at h
        subst h; simp
    case true.true.some.some =>
      rcases hd : strTruthy (E.exportJwk sv).d with _ | _ <;> rw [hd] at h
      · simp at h
      · simp only [if_true, Except.ok.injEq] at h
        subst h; simp
  · intro hn
    rcases hpk : kp.publicKey with _ | pv <;>
      simp [exportKeyPair, toPublicKeyBytes, hpk, hn]

/-- Witness for `exportKeyPair_secret_omission`: the concrete
public-only pair exports successfully under `secretKey: true` with no
secret fields. -/
theorem exportKeyPair_secret_omission_witness :
    ∃ doc, exportKeyPair calcEngine (some calcPubOnlyPair) true true true = .ok doc ∧
      doc.secretKeyJwk = none ∧ doc.secretKeyMultibase = none :=
  (exportKeyPair_secret_omission calcEngine calcPubOnlyPair).2 rfl

/-- The public multibase string produced for the generated pair. -/
def genMb {H : Type} (E : Engine H) (ml : Nat) : String :=
  E.base58enc (E.exportSpki (E.importJwk (E.exportJwk (E.generateKey ml).1) ["verify"]))

/-- The secret multibase string produced for the generated pair. -/
def genSmb {H : Type} (E : Engine H) (ml : Nat) : String :=
  E.base58enc (E.exportPkcs8 (E.importJwk (E.exportJwk (E.generateKey ml).2) ["sign"]))

/-- Closed form of `_createKeyPairInterface` on an engine-backed pair
with an explicit nonzero modulus length. -/
lemma createKeyPairInterface_handles {H : Type} (E : Engine H) (kp : KeyObj H) (hp hs : H)
    (hpub : kp.publicKey = some hp) (hsec : kp.secretKey = some hs)
    (ml : Nat) (hml : ml ≠ 0) :
    createKeyPairInterface E (some kp) (some ml) =
      if strTruthy (E.exportJwk hs).d then
        .ok { kp with
          publicKeyMultibase :=
            some (E.base58enc (E.exportSpki (E.importJwk (E.exportJwk hp) ["verify"]))),
          secretKeyMultibase :=
            some (E.base58enc (E.exportPkcs8 (E.importJwk (E.exportJwk hs) ["sign"]))),
          modulusLength := some ml }
      else .error (.error "JWK does not contain a private key.") := by
  by_cases hd : strTruthy (E.exportJwk hs).d = true
  · simp [createKeyPairInterface, exportKeyPair, toPublicKeyBytes, toSecretKeyBytes,
      natTruthy, hpub, hsec, hd, hml]
  · simp only [Bool.not_eq_true] at hd
    simp [createKeyPairInterface, exportKeyPair, toPublicKeyBytes, toSecretKeyBytes,
      natTruthy, hpub, hsec, hd, hml]

/-- Closed form of `generate` for an allowed modulus length: it
succeeds when the exported secret JWK of the fresh pair carries private
material, and fails with the private-key `Error` otherwise. -/
lemma generate_eq {H : Type} (E : Engine H) (id controller : Option String) (ml : Nat)
    (hml : ml = 2048 ∨ ml = 3072 ∨ ml = 4096) :
    generate E id controller ml =
      if strTruthy (E.exportJwk (E.generateKey ml).2).d then
        .ok { publicKey := some (E.generateKey ml).1,
              secretKey := some (E.generateKey ml).2,
              publicKeyMultibase := some (genMb E ml),
              secretKeyMultibase := some (genSmb E ml),
              modulusLength := some ml,
              controller := controller,
              id := if strTruthy id then id
                    else if strTruthy controller then
                      some ((controller.getD "") ++ "#" ++ genMb E ml)
                    else some ("#" ++ genMb E ml) }
      else .error (.error "JWK does not contain a private key.") := by
  have hcond : ¬(ml ≠ 2048 ∧ ml ≠ 3072 ∧ ml ≠ 4096) := by
    rcases hml with h | h | h <;> simp [h]
  have hml0 : ml ≠ 0 := by
    rcases hml with h | h | h <;> simp [h]
  rw [generate, if_neg hcond]
  dsimp only
  rw [createKeyPairInterface_handles E _ (E.generateKey ml).1 (E.generateKey ml).2 rfl rfl ml hml0]
  by_cases hd : strTruthy (E.exportJwk (E.generateKey ml).2).d = true
  · rw [if_pos hd, if_pos hd]
    simp [exportKeyPair, toPublicKeyBytes, genMb, genSmb]
  · simp only [Bool.not_eq_true] at hd
    rw [if_neg (by simp [hd]), if_neg (by simp [hd])]

/-- C2: `generate` fails with the dedicated modulus-length `TypeError`
for every modulus length outside {2048, 3072, 4096}, and never fails
with that validation error for the three allowed values. -/
theorem generate_modulus_validation {H : Type} (E : Engine H)
    (id controller : Option String) (ml : Nat) :
    (¬(ml = 2048 ∨ ml = 3072 ∨ ml = 4096) →
      generate E id controller ml =
        .error (.typeError "\"modulusLength\" must be one of: 2048, 3072, or 4096.")) ∧
    ((ml = 2048 ∨ ml = 3072 ∨ ml = 4096) →
      generate E id controller ml ≠
        .error (.typeError "\"modulusLength\" must be one of: 2048, 3072, or 4096.")) := by
  constructor
  · intro h
    push_neg at h
    obtain ⟨h1, h2, h3⟩ := h
    rw [generate, if_pos ⟨h1, h2, h3⟩]
  · intro hml
    rw [generate_eq E id controller ml hml]
    by_cases hd : strTruthy (E.exportJwk (E.generateKey ml).2).d = true
    · simp [hd]
    · simp only [Bool.not_eq_true] at hd
      simp [hd]

/-- Witness for `generate_modulus_validation`: 1024 is rejected with
the modulus-length `TypeError`, 2048 is not. -/
theorem generate_modulus_validation_witness :
    generate calcEngine none none 1024 =
      .error (.typeError "\"modulusLength\" must be one of: 2048, 3072, or 4096.") ∧
    generate calcEngine none none 2048 ≠
      .error (.typeError "\"modulusLength\" must be one of: 2048, 3072, or 4096.") :=
  ⟨(generate_modulus_validation calcEngine none none 1024).1 (by decide),
   (generate_modulus_validation calcEngine none none 2048).2 (.inl rfl)⟩

/-- C3 (amended): when `id` is omitted, `generate` derives the id as
`controller#publicKeyMultibase` when a controller is given, and as
`#publicKeyMultibase` when neither `id` nor `controller` is given — the
id is always set, never left undefined. -/
theorem generate_id_derivation {H : Type} (E : Engine H) (controller : Option String)
    (ml : Nat) (hml : ml = 2048 ∨ ml = 3072 ∨ ml = 4096)
    (hd : strTruthy (E.exportJwk (E.generateKey ml).2).d = true) :
    ∃ kp mb, generate E none controller ml = .ok kp ∧
      kp.publicKeyMultibase = some mb ∧
      kp.id = some (if strTruthy controller then (controller.getD "") ++ "#" ++ mb
                    else "#" ++ mb) := by
  have h := generate_eq E none controller ml hml
  rw [if_pos hd] at h
  refine ⟨_, genMb E ml, h, rfl, ?_⟩
  rw [apply_ite some]
  rfl

/-- Witness for `generate_id_derivation`: with the concrete engine and
controller `did:example:1234`, the generated id is the controller, a
`#`, then the `publicKeyMultibase` text. -/
theorem generate_id_derivation_witness :
    ∃ kp mb, generate calcEngine none (some "did:example:1234") 2048 = .ok kp ∧
      kp.publicKeyMultibase = some mb ∧
      kp.id = some (if strTruthy (some "did:example:1234") then
          ((some "did:example:1234").getD "") ++ "#" ++ mb
        else "#" ++ mb) :=
  generate_id_derivation calcEngine (some "did:example:1234") 2048 (.inl rfl) rfl

/-- C3 counterexample: with neither `id` nor `controller`, `generate`
does not leave the id undefined — it sets the default
`#publicKeyMultibase` id. -/
theorem generate_default_id_counterexample :
    (generate calcEngine none none 2048).toOption.bind KeyObj.id =
      some "#z65.81.65.66.65.81.65.66" := by
  decide

/-- The document produced by `exportKeyPair` with both halves requested
on an engine-backed pair whose secret export carries `d`. -/
def exportDoc {H : Type} (E : Engine H) (idv ctrl : Option String) (hp hs : H)
    (ic : Bool) : KeyObj H :=
  { type := some "Multikey",
    context := if ic then some (.str MULTIKEY_CONTEXT_V1_URL) else none,
    id := if strTruthy idv then idv else none,
    controller := if strTruthy ctrl then ctrl else none,
    publicKeyMultibase :=
      some (E.base58enc (E.exportSpki (E.importJwk (E.exportJwk hp) ["verify"]))),
    publicKeyJwk := some (E.exportJwk hp),
    secretKeyMultibase :=
      some (E.base58enc (E.exportPkcs8 (E.importJwk (E.exportJwk hs) ["sign"]))),
    secretKeyJwk := some (E.exportJwk hs) }

/-- Closed form of `exportKeyPair` with both halves requested on an
engine-backed pair. -/
lemma exportKeyPair_handles {H : Type} (E : Engine H) (kp : KeyObj H) (hp hs : H)
    (hpub : kp.publicKey = some hp) (hsec : kp.secretKey = some hs)
    (hd : strTruthy (E.exportJwk hs).d = true) (ic : Bool) :
    exportKeyPair E (some kp) true true ic = .ok (exportDoc E kp.id kp.controller hp hs ic) := by
  simp [exportKeyPair, toPublicKeyBytes, toSecretKeyBytes, hpub, hsec, hd, exportDoc]

/-- Closed form of `importKeyPair` on a document carrying both JWK
halves and no engine handle. -/
lemma importKeyPair_jwkdoc {H : Type} (E : Engine H) (doc : KeyObj H) (pj sj : Jwk)
    (h1 : doc.publicKey = none) (h2 : doc.publicKeyJwk = some pj)
    (h3 : doc.secretKeyJwk = some sj) (h4 : doc.keyAgreement = false) :
    importKeyPair E (some doc) = .ok { doc with
      publicKey := some (E.importJwk pj ["verify"]),
      secretKey := some (E.importJwk sj ["sign"]) } := by
  simp [importKeyPair, h1, h2, h3, h4]

/-- Applying the truthy-or-absent copy twice equals applying it once. -/
lemma truthyIf_idem (x : Option String) :
    (if strTruthy (if strTruthy x then x else none) then
       (if strTruthy x then x else none) else none) =
      (if strTruthy x then x else none) := by
  by_cases h : strTruthy x = true
  · simp [h]
  · simp only [Bool.not_eq_true] at h
    have hx : (if strTruthy x then x else none) = none := by simp [h]
    rw [hx]
    rfl

/-- C1: exporting a key pair holding both halves with public and secret
included, importing the resulting document, and exporting the imported
pair with identical options reproduces the first document field for
field (the engine JWK serialization being deterministic, with JWK
import/export as mutual inverses). -/
theorem export_import_export_roundtrip {H : Type} (E : Engine H)
    (hE : ∀ j u, E.exportJwk (E.importJwk j u) = j)
    (kp : KeyObj H) (hp hs : H)
    (hpub : kp.publicKey = some hp) (hsec : kp.secretKey = some hs)
    (hd : strTruthy (E.exportJwk hs).d = true) (ic : Bool) :
    ∃ doc kp2, exportKeyPair E (some kp) true true ic = .ok doc ∧
      importKeyPair E (some doc) = .ok kp2 ∧
      exportKeyPair E (some kp2) true true ic = .ok doc := by
  refine ⟨exportDoc E kp.id kp.controller hp hs ic,
    { exportDoc E kp.id kp.controller hp hs ic with
      publicKey := some (E.importJwk (E.exportJwk hp) ["verify"]),
      secretKey := some (E.importJwk (E.exportJwk hs) ["sign"]) },
    exportKeyPair_handles E kp hp hs hpub hsec hd ic, ?_, ?_⟩
  · exact importKeyPair_jwkdoc E _ (E.exportJwk hp) (E.exportJwk hs) rfl rfl rfl rfl
  · rw [exportKeyPair_handles E _ (E.importJwk (E.exportJwk hp) ["verify"])
      (E.importJwk (E.exportJwk hs) ["sign"]) rfl rfl (by rw [hE]; exact hd) ic]
    simp [exportDoc, hE, truthyIf_idem]

/-- Witness for `export_import_export_roundtrip`: the concrete
engine-backed pair round-trips through export, import and re-export. -/
theorem export_import_export_roundtrip_witness :
    ∃ doc kp2, exportKeyPair calcEngine (some calcPair) true true true = .ok doc ∧
      importKeyPair calcEngine (some doc) = .ok kp2 ∧
      exportKeyPair calcEngine (some kp2) true true true = .ok doc :=
  export_import_export_roundtrip calcEngine (fun _ _ => rfl) calcPair
    calcPubJwk calcSecJwk rfl rfl rfl true

end Claims

end RsaMultikey
